import Mathlib

/-!
Shallow embedding of the face-scan backend.

The source is `src/scanService.ts` (region resolver, object writer,
orchestrator) together with the HTTP handler `src/api/scan.ts` and the
response type in `src/types.ts`.  The two module-level mutable variables
(`resolvedRegion`, `s3Client`) become an explicit `ServiceState`; the AWS
SDK and the analysis provider become a `World` of externally supplied call
outcomes, consumed by a per-process call counter; every external call is
recorded in an event trace so claims about "no discovery call" or "one
retry" are statements about the trace and the counters.
-/

/-- Error values as the code inspects them: an optional `message`, an
optional error `name` and the optional HTTP status carried in
`error.$metadata.httpStatusCode`. -/
structure JsError where
  message : Option String
  errName : Option String
  httpStatusCode : Option Nat
  deriving DecidableEq

/-- Region identifiers are plain strings in the source. -/
abbrev RegionId := String

/-- Configuration, validated at startup by `requireEnv` / `optionalEnv`:
bucket name, folder and the fixed-region chain
`S3_REGION || AWS_REGION || AWS_DEFAULT_REGION || ''` (so the empty string
means "no region configured"). -/
structure Config where
  bucket : String
  folder : String
  preferredRegion : String
  deriving DecidableEq

/-- Outcome of one `GetBucketLocationCommand`: its `LocationConstraint`
(absent for us-east-1 buckets) on success, or the thrown error. -/
abbrev DiscoveryOutcome := Except JsError (Option String)

/-- The fortune sub-record of `BiometricAnalysis` (src/types.ts). -/
structure Fortune where
  thienDinh : String
  taiBach : String
  phuThe : String
  tongQuan : String
  deriving DecidableEq

/-- The structured analysis payload (src/types.ts). -/
structure BiometricAnalysis where
  estimatedAge : Int
  beautyScore : Int
  lifeQuote : String
  archetype : String
  fortune : Fortune
  deriving DecidableEq

/-- The external world: the outcome of the n-th bucket-location discovery
call and of the n-th put attempt (both counted process-wide, in call
order), the ISO timestamp and random identifier consumed by
`generateObjectKey`, and the analysis provider's outcome for a given
cleaned base64 payload (the provider interaction of `analyzeImage`,
including response-text parsing, is opaque to the core and is supplied
as a whole, as the design treats it). -/
structure World where
  discoveryResult : Nat → DiscoveryOutcome
  putResult : Nat → Option JsError
  timestamp : String
  uuid : String
  analysisResult : String → Except JsError BiometricAnalysis

/-- Observable external calls.  A put attempt records the region the client
sending it is bound to, the object key, and the payload bytes. -/
inductive Event where
  | discovery : Event
  | put : RegionId → String → List Nat → Event
  | analysisCall : Event
  deriving DecidableEq

/-- The module-level mutable pair of scanService.ts: `resolvedRegion` and
`s3Client`.  A client handle is represented by the region it is bound to
(credentials and `forcePathStyle` are fixed at construction). -/
structure ServiceState where
  resolvedRegion : Option String
  s3Client : Option RegionId
  deriving DecidableEq

/-- Execution state threaded through the interpreter: the service state,
the counters indexing the world's outcome streams, and the event trace. -/
structure ExecState where
  svc : ServiceState
  discoveryCount : Nat
  putCount : Nat
  events : List Event
  deriving DecidableEq

/-- Fresh process state: both mutable variables null, no calls made. -/
def ExecState.init : ExecState := ⟨⟨none, none⟩, 0, 0, []⟩

/-- JavaScript `a || b` on strings: `b` when `a` is empty. -/
def jsOr (a b : String) : String := if a = "" then b else a

/-- JavaScript truthiness of an optional string: the empty string is falsy,
like `null`/`undefined`. -/
def optTruthy : Option String → Option String
  | some s => if s = "" then none else some s
  | none => none

/-- Does `pat` occur starting at some position of the list (the end
included)? -/
def strContainsAux (pat : List Char) : List Char → Bool
  | [] => List.isPrefixOf pat []
  | c :: rest => List.isPrefixOf pat (c :: rest) || strContainsAux pat rest

/-- Substring test, modelling JavaScript `String.prototype.includes`. -/
def strContains (s pat : String) : Bool := strContainsAux pat.toList s.toList

/-- Source `normalizeRegion`: null/empty and `us-east-1` map to `us-east-1`,
the legacy alias `EU` maps to `eu-west-1`, anything else passes through. -/
def normalizeRegion (value : Option String) : String :=
  match value with
  | none => "us-east-1"
  | some v =>
    if v = "" ∨ v = "us-east-1" then "us-east-1"
    else if v = "EU" then "eu-west-1"
    else v

/-- The region-mismatch signature tested in `persistScanResult`'s catch
clause: `message` contains `endpoint`, or `name` is `PermanentRedirect`,
or the HTTP status is 301 (with optional chaining, so absent fields are
falsy). -/
def isRegionMismatch (e : JsError) : Bool :=
  (match e.message with
   | some m => strContains m "endpoint"
   | none => false)
  || e.errName == some "PermanentRedirect"
  || e.httpStatusCode == some 301

/-- Source `ensureRegion`: return the cached region when truthy; when a
fixed region is configured, normalize and cache it without discovery;
otherwise issue one discovery call and cache the normalized location, or
cache the baseline `us-east-1` when discovery throws (the error is only
logged, never re-thrown). -/
def ensureRegion (cfg : Config) (w : World) (s : ExecState) : RegionId × ExecState :=
  match optTruthy s.svc.resolvedRegion with
  | some r => (r, s)
  | none =>
    if cfg.preferredRegion ≠ "" then
      let r := jsOr (normalizeRegion (some cfg.preferredRegion)) "us-east-1"
      (r, { s with svc := { s.svc with resolvedRegion := some r } })
    else
      let d := w.discoveryResult s.discoveryCount
      let s1 : ExecState :=
        { s with
          discoveryCount := s.discoveryCount + 1,
          events := s.events ++ [Event.discovery] }
      match d with
      | Except.ok loc =>
        let r := jsOr (normalizeRegion loc) "us-east-1"
        (r, { s1 with svc := { s1.svc with resolvedRegion := some r } })
      | Except.error _ =>
        ("us-east-1",
         { s1 with svc := { s1.svc with resolvedRegion := some "us-east-1" } })

/-- Source `getS3Client`: return the live client if any, else resolve the
region and construct a client bound to it, caching the handle. -/
def getS3Client (cfg : Config) (w : World) (s : ExecState) : RegionId × ExecState :=
  match s.svc.s3Client with
  | some c => (c, s)
  | none =>
    let er := ensureRegion cfg w s
    (er.1, { er.2 with svc := { er.2.svc with s3Client := some er.1 } })

/-- Source `sanitizeFolder`: strip leading and trailing `/` characters
(the regexes `^\/+` and `\/+$`). -/
def sanitizeFolder (input : String) : String :=
  let l := input.toList.dropWhile (fun c => c = '/')
  String.mk ((l.reverse.dropWhile (fun c => c = '/')).reverse)

/-- ASCII word character, as matched by the regex class `\w`. -/
def isWordChar (c : Char) : Bool := c.isAlphanum || c = '_'

/-- String prefix test over the character lists. -/
def strStartsWith (pat s : String) : Bool := List.isPrefixOf pat.toList s.toList

/-- Drop the first `n` characters of a string. -/
def strDrop (s : String) (n : Nat) : String := String.mk (s.toList.drop n)

/-- Source `generateObjectKey`: folder prefix, ISO timestamp with `:` and
`.` replaced by `-`, a random identifier (supplied by the world, covering
both the `crypto.randomUUID` and the `Math.random` branch), and the `.jpg`
extension.  Called once per `persistScanResult` call. -/
def generateObjectKey (cfg : Config) (w : World) : String :=
  let safeFolder := sanitizeFolder cfg.folder
  let id := w.uuid
  let timestamp :=
    String.mk (w.timestamp.toList.map (fun c => if c = ':' ∨ c = '.' then '-' else c))
  let pfx := if safeFolder ≠ "" then safeFolder ++ "/" else ""
  pfx ++ timestamp ++ "-" ++ id ++ ".jpg"

/-- The data-URL header stripped by `base64ToBuffer`: the regex
`^data:image\/\w+;base64,` (any non-empty run of word characters as the
subtype). -/
def stripDataUrlHeader (s : String) : String :=
  if strStartsWith "data:image/" s then
    let rest := strDrop s 11
    let ws := rest.toList.takeWhile isWordChar
    if 0 < ws.length then
      let after := strDrop rest ws.length
      if strStartsWith ";base64," after then strDrop after 8 else s
    else s
  else s

/-- Value of a character in the standard base64 alphabet. -/
def base64CharVal (c : Char) : Option Nat :=
  if 'A' ≤ c ∧ c ≤ 'Z' then some (c.toNat - 65)
  else if 'a' ≤ c ∧ c ≤ 'z' then some (c.toNat - 97 + 26)
  else if '0' ≤ c ∧ c ≤ '9' then some (c.toNat - 48 + 52)
  else if c = '+' then some 62
  else if c = '/' then some 63
  else none

/-- Decode one (possibly final, partial) group of base64 sextets into
bytes. -/
def base64Group : List Nat → List Nat
  | [a, b, c, d] => [a * 4 + b / 16, (b % 16) * 16 + c / 4, (c % 4) * 64 + d]
  | [a, b, c] => [a * 4 + b / 16, (b % 16) * 16 + c / 4]
  | [a, b] => [a * 4 + b / 16]
  | _ => []

/-- Decode a stream of sextet values, four at a time. -/
def base64DecodeVals : List Nat → List Nat
  | a :: b :: c :: d :: rest => base64Group [a, b, c, d] ++ base64DecodeVals rest
  | rest => base64Group rest

/-- Node's forgiving `Buffer.from(clean, 'base64')`: characters outside the
base64 alphabet (padding included) are ignored, complete groups of four
sextets give three bytes, a trailing group of three gives two bytes, of
two gives one byte, and a lone trailing sextet is dropped. -/
def base64Decode (s : String) : List Nat :=
  base64DecodeVals (s.toList.filterMap base64CharVal)

/-- Source `base64ToBuffer`: strip the data-URL header and decode. -/
def base64ToBuffer (base64Image : String) : List Nat :=
  base64Decode (stripDataUrlHeader base64Image)

/-- Result of the object writer: the `{ objectKey, region }` outcome, or
the error it throws. -/
inductive PersistResult where
  | ok : String → RegionId → PersistResult
  | err : JsError → PersistResult
  deriving DecidableEq

/-- Source `persistScanResult`.  Generate the key and payload once, resolve
the region and obtain a client, then attempt the put.  On a region-mismatch
failure: reset `s3Client` and `resolvedRegion` to null, issue a discovery
call directly, build a new client bound to the discovered region (note the
source assigns `s3Client` but not `resolvedRegion` here), and retry the
same put once; any failure inside that recovery block (discovery included)
is re-thrown as the retry error.  A non-mismatch first failure is re-thrown
as is. -/
def persistScanResult (cfg : Config) (w : World) (base64Image : String)
    (s : ExecState) : PersistResult × ExecState :=
  let objectKey := generateObjectKey cfg w
  let body := base64ToBuffer base64Image
  let er := ensureRegion cfg w s
  let region := er.1
  let gc := getS3Client cfg w er.2
  let client := gc.1
  let s2 := gc.2
  let out1 := w.putResult s2.putCount
  let s3 : ExecState :=
    { s2 with
      putCount := s2.putCount + 1,
      events := s2.events ++ [Event.put client objectKey body] }
  match out1 with
  | none => (PersistResult.ok objectKey region, s3)
  | some error =>
    if isRegionMismatch error then
      let s4 : ExecState := { s3 with svc := ⟨none, none⟩ }
      let d := w.discoveryResult s4.discoveryCount
      let s5 : ExecState :=
        { s4 with
          discoveryCount := s4.discoveryCount + 1,
          events := s4.events ++ [Event.discovery] }
      match d with
      | Except.error retryError => (PersistResult.err retryError, s5)
      | Except.ok loc =>
        let region2 := jsOr (normalizeRegion loc) "us-east-1"
        let s6 : ExecState := { s5 with svc := { s5.svc with s3Client := some region2 } }
        let client2 := region2
        let out2 := w.putResult s6.putCount
        let s7 : ExecState :=
          { s6 with
            putCount := s6.putCount + 1,
            events := s6.events ++ [Event.put client2 objectKey body] }
        match out2 with
        | none => (PersistResult.ok objectKey region2, s7)
        | some retryError => (PersistResult.err retryError, s7)
    else
      (PersistResult.err error, s3)

/-- The data-URL header stripped inside `analyzeImage`: the regex
`^data:image\/(png|jpeg|webp);base64,`. -/
def stripAnalysisHeader (s : String) : String :=
  if strStartsWith "data:image/png;base64," s then strDrop s 22
  else if strStartsWith "data:image/jpeg;base64," s then strDrop s 23
  else if strStartsWith "data:image/webp;base64," s then strDrop s 24
  else s

/-- Source `analyzeImage`: clean the base64 payload and hand it to the
analysis provider; the provider round-trip (generate-content call, code
fence stripping, JSON parsing) is supplied whole by the world, as the
design treats the analysis call as an opaque external function. -/
def analyzeImage (w : World) (base64Image : String) (s : ExecState) :
    Except JsError BiometricAnalysis × ExecState :=
  (w.analysisResult (stripAnalysisHeader base64Image),
   { s with events := s.events ++ [Event.analysisCall] })

/-- Result of the orchestrator: the response payload, or the first error. -/
inductive ScanResult where
  | ok : BiometricAnalysis → String → String → ScanResult
  | err : JsError → ScanResult
  deriving DecidableEq

/-- Source `handleScan`: await the analysis, then await the object writer,
then build the public URL (baseline region uses the bare hostname, any
other region the region-qualified one). -/
def handleScan (cfg : Config) (w : World) (image : String) (s : ExecState) :
    ScanResult × ExecState :=
  let ar := analyzeImage w image s
  match ar.1 with
  | Except.error e => (ScanResult.err e, ar.2)
  | Except.ok analysis =>
    let pr := persistScanResult cfg w image ar.2
    match pr.1 with
    | PersistResult.err e => (ScanResult.err e, pr.2)
    | PersistResult.ok imageKey region =>
      let domain :=
        if region = "us-east-1" then "s3.amazonaws.com"
        else "s3." ++ region ++ ".amazonaws.com"
      let s3Url := "https://" ++ cfg.bucket ++ "." ++ domain ++ "/" ++ imageKey
      (ScanResult.ok analysis imageKey s3Url, pr.2)

/-- The request body's `image` field as the handler sees it after JSON
parsing: absent, a string, a number, a boolean, or some other value. -/
inductive JsValue where
  | missing : JsValue
  | str : String → JsValue
  | num : Int → JsValue
  | boolVal : Bool → JsValue
  | objVal : JsValue
  deriving DecidableEq

/-- Response bodies the handler can produce. -/
inductive ResponseBody where
  | scanOk : BiometricAnalysis → String → String → ResponseBody
  | detail : String → ResponseBody
  deriving DecidableEq

/-- An HTTP response: status, JSON body, and the `Allow` header if set. -/
structure HttpResponse where
  status : Nat
  body : ResponseBody
  allowHeader : Option String
  deriving DecidableEq

/-- Source default handler in `src/api/scan.ts`: non-POST methods get 405
with `Allow: POST`; a falsy or non-string `image` gets 400 before any
processing; otherwise `handleScan` runs and its outcome maps to 200, or to
500 with the error's message as `detail` (the generic message when the
thrown value carries none). -/
def handler (cfg : Config) (w : World) (method : String) (image : JsValue)
    (s : ExecState) : HttpResponse × ExecState :=
  if method ≠ "POST" then
    (⟨405, ResponseBody.detail "Method Not Allowed", some "POST"⟩, s)
  else
    match image with
    | JsValue.str img =>
      if img = "" then
        (⟨400, ResponseBody.detail "Thiếu dữ liệu ảnh base64.", none⟩, s)
      else
        match handleScan cfg w img s with
        | (ScanResult.ok a k u, s1) => (⟨200, ResponseBody.scanOk a k u, none⟩, s1)
        | (ScanResult.err e, s1) =>
          (⟨500, ResponseBody.detail (e.message.getD "Không thể xử lý yêu cầu."), none⟩, s1)
    | _ => (⟨400, ResponseBody.detail "Thiếu dữ liệu ảnh base64.", none⟩, s)

/-!
### Concrete scenarios

Worlds and configurations used to evaluate the embedding on explicit
inputs: a region-mismatch retry that succeeds, one that fails again, a
failing rediscovery, a non-mismatch failure, and a fixed-region process.
-/

/-- A concrete analysis payload for runs whose analysis succeeds. -/
def dummyAnalysis : BiometricAnalysis :=
  ⟨25, 95, "an ancient quote", "the radiant sage", ⟨"t1", "t2", "t3", "t4"⟩⟩

/-- Configuration without a fixed region (discovery is needed). -/
def cfgAuto : Config := ⟨"face-bucket", "person_image", ""⟩

/-- Configuration with the fixed region `ap-south-1`. -/
def cfgFixed : Config := ⟨"face-bucket", "person_image", "ap-south-1"⟩

/-- A `PermanentRedirect` error: carries the region-mismatch signature. -/
def errRedirect : JsError := ⟨none, some "PermanentRedirect", some 301⟩

/-- An endpoint-message error: also a region-mismatch signature. -/
def errEndpoint : JsError :=
  ⟨some "Invalid endpoint for this bucket region", some "EndpointError", none⟩

/-- An access-denied error: not a region-mismatch signature. -/
def errDenied : JsError := ⟨some "Access Denied", some "AccessDenied", some 403⟩

/-- A network error, as thrown by a failing discovery call. -/
def errNetwork : JsError := ⟨some "socket hang up", some "NetworkingError", none⟩

/-- An analysis-provider error. -/
def errAnalysis : JsError := ⟨some "Không nhận được dữ liệu từ máy quét.", some "Error", none⟩

/-- Mismatch-then-retry-success world: initial discovery sees a us-east-1
bucket, the first put fails with `PermanentRedirect`, rediscovery reports
`eu-west-1`, and the retry succeeds. -/
def wRetryOk : World :=
  ⟨fun n => if n = 0 then Except.ok none else Except.ok (some "eu-west-1"),
   fun n => if n = 0 then some errRedirect else none,
   "2026-01-01T00:00:00.000Z", "abc123",
   fun _ => Except.ok dummyAnalysis⟩

/-- Mismatch-then-retry-failure world: like `wRetryOk` but the retried put
fails too, with a different (endpoint-message) error. -/
def wRetryFail : World :=
  ⟨fun n => if n = 0 then Except.ok none else Except.ok (some "eu-west-1"),
   fun n => if n = 0 then some errRedirect else some errEndpoint,
   "2026-01-01T00:00:00.000Z", "abc123",
   fun _ => Except.ok dummyAnalysis⟩

/-- Mismatch-then-rediscovery-failure world: the first put fails with the
mismatch signature and the rediscovery call inside the retry path throws a
network error. -/
def wDiscFail : World :=
  ⟨fun n => if n = 0 then Except.ok none else Except.error errNetwork,
   fun _ => some errRedirect,
   "2026-01-01T00:00:00.000Z", "abc123",
   fun _ => Except.ok dummyAnalysis⟩

/-- Non-mismatch failure world: the first put fails with access denied. -/
def wNoMatch : World :=
  ⟨fun _ => Except.ok none,
   fun _ => some errDenied,
   "2026-01-01T00:00:00.000Z", "abc123",
   fun _ => Except.ok dummyAnalysis⟩

/-- Fixed-region mismatch world: every discovery would report `eu-west-1`,
the first put fails with the mismatch signature, later puts succeed. -/
def wFixedMismatch : World :=
  ⟨fun _ => Except.ok (some "eu-west-1"),
   fun n => if n = 0 then some errRedirect else none,
   "2026-01-01T00:00:00.000Z", "abc123",
   fun _ => Except.ok dummyAnalysis⟩

/-- Failing-analysis world: the provider call throws; storage would accept
every put and discovery reports nothing. -/
def wAnalysisFail : World :=
  ⟨fun _ => Except.ok none,
   fun _ => none,
   "2026-01-01T00:00:00.000Z", "abc123",
   fun _ => Except.error errAnalysis⟩

/-- The object key every scenario above generates (folder prefix, sanitized
timestamp, identifier, `.jpg`). -/
def scenarioKey : String := "person_image/2026-01-01T00-00-00-000Z-abc123.jpg"

/-- The execution state reached inside `persistScanResult` right after
region resolution and client construction, before the first put attempt. -/
def preparedState (cfg : Config) (w : World) (s : ExecState) : ExecState :=
  (getS3Client cfg w (ensureRegion cfg w s).2).2

/-!
### Claim theorems
-/

/-- C1.  The claim says a mismatch-then-successful-retry write returns the
retry's outcome AND leaves `resolvedRegion` equal to the region the retry
used.  Evaluating the code on such a write: the returned outcome is indeed
the retry's `{objectKey, region}` with the rediscovered region
`eu-west-1`, but the retry path never re-assigns `resolvedRegion`, so the
cache is still `null` afterwards and a subsequent write repeats discovery
instead of skipping it. -/
theorem persistScanResult_retry_success_leaves_cache_null :
    (persistScanResult cfgAuto wRetryOk "imagedata" ExecState.init).1 =
      PersistResult.ok scenarioKey "eu-west-1" ∧
    (persistScanResult cfgAuto wRetryOk "imagedata" ExecState.init).2.svc.resolvedRegion
      = none := by
  decide

/-- C2.  The claim says the live client and the cached region are always
updated as a pair, so no reachable state has a non-null client bound to a
region absent from the cache.  Evaluating the code on a
mismatch-then-successful-retry write: afterwards `s3Client` is a live
client bound to `eu-west-1` while `resolvedRegion` is `null` — the retry
path resets both together but then sets only the client. -/
theorem client_bound_region_absent_from_cache_after_retry :
    (persistScanResult cfgAuto wRetryOk "imagedata" ExecState.init).2.svc.s3Client
      = some "eu-west-1" ∧
    (persistScanResult cfgAuto wRetryOk "imagedata" ExecState.init).2.svc.resolvedRegion
      = none := by
  decide

/-- C3 counterexample.  The claim says a failing bucket-location lookup is
always recovered locally and never propagated to the caller.  In the
mismatch-retry path the discovery call sits inside the try block whose
catch re-throws: with the first put failing with a mismatch signature and
the rediscovery throwing `errNetwork`, `persistScanResult` propagates that
very discovery error to its caller. -/
theorem retry_path_discovery_failure_propagates :
    wDiscFail.discoveryResult 1 = Except.error errNetwork ∧
    (persistScanResult cfgAuto wDiscFail "imagedata" ExecState.init).1 =
      PersistResult.err errNetwork :=
  ⟨rfl, by decide⟩

/-- C4 counterexample.  The claim says that with a fixed configured region
no discovery call is ever issued, including in the writer's mismatch-retry
path.  With `preferredRegion = "ap-south-1"` and a first put failing with
the mismatch signature, the retry path issues a discovery call: the
trace contains `Event.discovery`. -/
theorem fixed_region_mismatch_still_discovers :
    cfgFixed.preferredRegion ≠ "" ∧
    (persistScanResult cfgFixed wFixedMismatch "imagedata" ExecState.init).2.discoveryCount
      = 1 := by
  decide

/-- C8.  `normalizeRegion` sends null and empty input to the baseline
`us-east-1`, the legacy alias `EU` to `eu-west-1`, and is the identity on
every other non-empty string. -/
theorem normalizeRegion_spec :
    normalizeRegion none = "us-east-1" ∧
    normalizeRegion (some "") = "us-east-1" ∧
    normalizeRegion (some "EU") = "eu-west-1" ∧
    ∀ v : String, v ≠ "" → v ≠ "EU" → normalizeRegion (some v) = v := by
  refine ⟨rfl, rfl, rfl, ?_⟩
  intro v h1 h2
  rcases eq_or_ne v "us-east-1" with hv | hv
  · subst hv; simp [normalizeRegion]
  · simp [normalizeRegion, h1, h2, hv]

/-- Witness for C8 at the concrete non-empty, non-alias region
`ap-south-1`. -/
theorem normalizeRegion_spec_witness :
    normalizeRegion (some "ap-south-1") = "ap-south-1" :=
  normalizeRegion_spec.2.2.2 "ap-south-1" (by decide) (by decide)

/-- C10.  `handleScan` awaits the analysis before the write begins: when
the analysis call fails, its error is returned, the service state and both
call counters are untouched, and the only recorded external call is the
analysis call — no object is written. -/
theorem analysis_failure_prevents_persist (cfg : Config) (w : World)
    (img : String) (s : ExecState) (e : JsError)
    (h : w.analysisResult (stripAnalysisHeader img) = Except.error e) :
    (handleScan cfg w img s).1 = ScanResult.err e ∧
    (handleScan cfg w img s).2.svc = s.svc ∧
    (handleScan cfg w img s).2.putCount = s.putCount ∧
    (handleScan cfg w img s).2.discoveryCount = s.discoveryCount ∧
    (handleScan cfg w img s).2.events = s.events ++ [Event.analysisCall] := by
  simp [handleScan, analyzeImage, h]

/-- Witness for C10: the failing-analysis world on a fresh process. -/
theorem analysis_failure_prevents_persist_witness :
    (handleScan cfgAuto wAnalysisFail "imagedata" ExecState.init).1 =
      ScanResult.err errAnalysis ∧
    (handleScan cfgAuto wAnalysisFail "imagedata" ExecState.init).2.svc =
      ExecState.init.svc ∧
    (handleScan cfgAuto wAnalysisFail "imagedata" ExecState.init).2.putCount =
      ExecState.init.putCount ∧
    (handleScan cfgAuto wAnalysisFail "imagedata" ExecState.init).2.discoveryCount =
      ExecState.init.discoveryCount ∧
    (handleScan cfgAuto wAnalysisFail "imagedata" ExecState.init).2.events =
      ExecState.init.events ++ [Event.analysisCall] :=
  analysis_failure_prevents_persist cfgAuto wAnalysisFail "imagedata" ExecState.init
    errAnalysis rfl

deriving instance DecidableEq for Except

/-- The string `jsOr a "us-east-1"` is never empty (both branches of the
JavaScript `||` yield a non-empty string). -/
theorem jsOr_ne_baseline (a : String) : jsOr a "us-east-1" ≠ "" := by
  unfold jsOr
  split
  · decide
  · assumption

/-- C5.  A first put attempt failing without the region-mismatch signature
propagates that exact error: exactly one put attempt happens (no retry)
and the discovery counter does not move beyond what initial region
resolution did. -/
theorem non_mismatch_error_propagates_no_retry (cfg : Config) (w : World)
    (img : String) (s : ExecState) (e : JsError)
    (h1 : w.putResult (preparedState cfg w s).putCount = some e)
    (h2 : isRegionMismatch e = false) :
    (persistScanResult cfg w img s).1 = PersistResult.err e ∧
    (persistScanResult cfg w img s).2.putCount = (preparedState cfg w s).putCount + 1 ∧
    (persistScanResult cfg w img s).2.discoveryCount =
      (preparedState cfg w s).discoveryCount := by
  simp only [preparedState] at h1 ⊢
  simp [persistScanResult, h1, h2]

/-- Witness for C5: an access-denied first put on a fresh process. -/
theorem non_mismatch_error_propagates_no_retry_witness :
    (persistScanResult cfgAuto wNoMatch "imagedata" ExecState.init).1 =
      PersistResult.err errDenied ∧
    (persistScanResult cfgAuto wNoMatch "imagedata" ExecState.init).2.putCount =
      (preparedState cfgAuto wNoMatch ExecState.init).putCount + 1 ∧
    (persistScanResult cfgAuto wNoMatch "imagedata" ExecState.init).2.discoveryCount =
      (preparedState cfgAuto wNoMatch ExecState.init).discoveryCount :=
  non_mismatch_error_propagates_no_retry cfgAuto wNoMatch "imagedata" ExecState.init
    errDenied (by decide) (by decide)

/-- C6.  When the first put fails with the mismatch signature, rediscovery
succeeds, and the retried put fails too, the writer propagates the retry's
error (not the first attempt's) and makes no third put attempt: the put
counter advances by exactly two. -/
theorem retry_failure_propagates_no_third_attempt (cfg : Config) (w : World)
    (img : String) (s : ExecState) (e1 e2 : JsError) (loc : Option String)
    (h1 : w.putResult (preparedState cfg w s).putCount = some e1)
    (h2 : isRegionMismatch e1 = true)
    (h3 : w.discoveryResult (preparedState cfg w s).discoveryCount = Except.ok loc)
    (h4 : w.putResult ((preparedState cfg w s).putCount + 1) = some e2) :
    (persistScanResult cfg w img s).1 = PersistResult.err e2 ∧
    (persistScanResult cfg w img s).2.putCount = (preparedState cfg w s).putCount + 2 := by
  simp only [preparedState] at h1 h3 h4 ⊢
  simp [persistScanResult, h1, h2, h3, h4]

/-- Witness for C6: redirect on the first put, endpoint error on the
retried put; the result carries the retry's error. -/
theorem retry_failure_propagates_no_third_attempt_witness :
    (persistScanResult cfgAuto wRetryFail "imagedata" ExecState.init).1 =
      PersistResult.err errEndpoint ∧
    (persistScanResult cfgAuto wRetryFail "imagedata" ExecState.init).2.putCount =
      (preparedState cfgAuto wRetryFail ExecState.init).putCount + 2 :=
  retry_failure_propagates_no_third_attempt cfgAuto wRetryFail "imagedata"
    ExecState.init errRedirect errEndpoint (some "eu-west-1")
    (by decide) (by decide) (by decide) (by decide)

/-- C7.  On the mismatch-retry path the trace of the call is exactly: the
first put, the rediscovery, the retried put — and both put attempts carry
the same object key `generateObjectKey cfg w` and the same payload bytes
`base64ToBuffer img`, each computed once at the top of the call (this
holds whether or not the retried put succeeds). -/
theorem retry_reuses_key_and_payload (cfg : Config) (w : World)
    (img : String) (s : ExecState) (e1 : JsError) (loc : Option String)
    (h1 : w.putResult (preparedState cfg w s).putCount = some e1)
    (h2 : isRegionMismatch e1 = true)
    (h3 : w.discoveryResult (preparedState cfg w s).discoveryCount = Except.ok loc) :
    (persistScanResult cfg w img s).2.events =
      (preparedState cfg w s).events ++
        [Event.put (getS3Client cfg w (ensureRegion cfg w s).2).1
           (generateObjectKey cfg w) (base64ToBuffer img),
         Event.discovery,
         Event.put (jsOr (normalizeRegion loc) "us-east-1")
           (generateObjectKey cfg w) (base64ToBuffer img)] := by
  simp only [preparedState] at h1 h3 ⊢
  rcases h4 : w.putResult ((getS3Client cfg w (ensureRegion cfg w s).2).2.putCount + 1)
    with _ | e2 <;>
    simp [persistScanResult, h1, h2, h3, h4]

/-- Witness for C7: the mismatch-then-success scenario; both put events
carry the same key and payload. -/
theorem retry_reuses_key_and_payload_witness :
    (persistScanResult cfgAuto wRetryOk "imagedata" ExecState.init).2.events =
      (preparedState cfgAuto wRetryOk ExecState.init).events ++
        [Event.put (getS3Client cfgAuto wRetryOk (ensureRegion cfgAuto wRetryOk ExecState.init).2).1
           (generateObjectKey cfgAuto wRetryOk) (base64ToBuffer "imagedata"),
         Event.discovery,
         Event.put (jsOr (normalizeRegion (some "eu-west-1")) "us-east-1")
           (generateObjectKey cfgAuto wRetryOk) (base64ToBuffer "imagedata")] :=
  retry_reuses_key_and_payload cfgAuto wRetryOk "imagedata" ExecState.init
    errRedirect (some "eu-west-1") (by decide) (by decide) (by decide)

/-- C3, amended.  A discovery failure during region resolution
(`ensureRegion`) is recovered locally — the resolver returns the baseline
`us-east-1`, caches it, and raises nothing.  A discovery failure inside
the writer's mismatch-retry path, however, is propagated to the caller as
the retry error. -/
theorem discovery_failure_recovery_split (cfg : Config) (w : World)
    (img : String) (s t : ExecState) (e ef e1 : JsError)
    (hp : cfg.preferredRegion = "")
    (hr : optTruthy s.svc.resolvedRegion = none)
    (hd : w.discoveryResult s.discoveryCount = Except.error e)
    (h1 : w.putResult (preparedState cfg w t).putCount = some e1)
    (h2 : isRegionMismatch e1 = true)
    (h3 : w.discoveryResult (preparedState cfg w t).discoveryCount = Except.error ef) :
    ((ensureRegion cfg w s).1 = "us-east-1" ∧
     (ensureRegion cfg w s).2.svc.resolvedRegion = some "us-east-1") ∧
    (persistScanResult cfg w img t).1 = PersistResult.err ef := by
  constructor
  · simp [ensureRegion, hr, hp, hd]
  · simp only [preparedState] at h1 h3
    simp [persistScanResult, h1, h2, h3]

/-- Witness for the amended C3: `wDiscFail` makes `ensureRegion` recover
from a failing lookup (at discovery index 1) while the same failing lookup
inside the retry path escapes from `persistScanResult`. -/
theorem discovery_failure_recovery_split_witness :
    ((ensureRegion cfgAuto wDiscFail ⟨⟨none, none⟩, 1, 0, []⟩).1 = "us-east-1" ∧
     (ensureRegion cfgAuto wDiscFail ⟨⟨none, none⟩, 1, 0, []⟩).2.svc.resolvedRegion =
       some "us-east-1") ∧
    (persistScanResult cfgAuto wDiscFail "imagedata" ExecState.init).1 =
      PersistResult.err errNetwork :=
  discovery_failure_recovery_split cfgAuto wDiscFail "imagedata"
    ⟨⟨none, none⟩, 1, 0, []⟩ ExecState.init errNetwork errNetwork errRedirect
    (by decide) (by decide) (by decide) (by decide) (by decide) (by decide)

/-- C4, amended.  With a fixed region configured, region resolution
(`ensureRegion`) returns the normalized configured region and issues no
discovery call; but over a whole write from a fresh process, a discovery
call is still issued exactly when the first put fails with the mismatch
signature, because the retry path calls discovery directly, bypassing the
configured region. -/
theorem fixed_region_resolution_and_retry_discovery (cfg : Config) (w : World)
    (img : String) (s : ExecState)
    (h : cfg.preferredRegion ≠ "")
    (hs : optTruthy s.svc.resolvedRegion = none) :
    ((ensureRegion cfg w s).1 = jsOr (normalizeRegion (some cfg.preferredRegion)) "us-east-1" ∧
     (ensureRegion cfg w s).2.discoveryCount = s.discoveryCount ∧
     (ensureRegion cfg w s).2.events = s.events) ∧
    (persistScanResult cfg w img ExecState.init).2.discoveryCount =
      (match w.putResult 0 with
       | some e => if isRegionMismatch e then 1 else 0
       | none => 0) := by
  have hne := jsOr_ne_baseline (normalizeRegion (some cfg.preferredRegion))
  constructor
  · simp [ensureRegion, hs, h]
  · rcases hput : w.putResult 0 with _ | e
    · simp [persistScanResult, ensureRegion, getS3Client, ExecState.init, optTruthy,
        h, hput, hne]
    · rcases hm : isRegionMismatch e with _ | _
      · simp [persistScanResult, ensureRegion, getS3Client, ExecState.init, optTruthy,
          h, hput, hm, hne]
      · rcases hd : w.discoveryResult 0 with ed | loc
        · simp [persistScanResult, ensureRegion, getS3Client, ExecState.init, optTruthy,
            h, hput, hm, hd, hne]
        · rcases hput2 : w.putResult 1 with _ | e2 <;>
            simp [persistScanResult, ensureRegion, getS3Client, ExecState.init, optTruthy,
              h, hput, hm, hd, hput2, hne]

/-- Witness for the amended C4: fixed region `ap-south-1`, first put fails
with the mismatch signature, so the process issues exactly one discovery
call. -/
theorem fixed_region_resolution_and_retry_discovery_witness :
    ((ensureRegion cfgFixed wFixedMismatch ExecState.init).1 =
       jsOr (normalizeRegion (some cfgFixed.preferredRegion)) "us-east-1" ∧
     (ensureRegion cfgFixed wFixedMismatch ExecState.init).2.discoveryCount =
       ExecState.init.discoveryCount ∧
     (ensureRegion cfgFixed wFixedMismatch ExecState.init).2.events =
       ExecState.init.events) ∧
    (persistScanResult cfgFixed wFixedMismatch "imagedata" ExecState.init).2.discoveryCount =
      (match wFixedMismatch.putResult 0 with
       | some e => if isRegionMismatch e then 1 else 0
       | none => 0) :=
  fixed_region_resolution_and_retry_discovery cfgFixed wFixedMismatch "imagedata"
    ExecState.init (by decide) (by decide)

/-- Is the request body's `image` field a string? -/
def isStringVal : JsValue → Bool
  | JsValue.str _ => true
  | _ => false

/-- C9.  Three independent facts about the handler, each quantified over
every request and world on its own: every non-POST request gets 405 with
`Allow: POST` and an untouched state, whatever its body; every POST whose
`image` field is not a string gets 400 with an untouched state (so neither
analysis nor storage is invoked); and every POST whose processing
(`handleScan`) fails gets 500 with a `detail` string. -/
theorem handler_status_codes :
    (∀ (cfg : Config) (w : World) (s : ExecState) (method : String) (v : JsValue),
      method ≠ "POST" →
        (handler cfg w method v s).1.status = 405 ∧
        (handler cfg w method v s).1.allowHeader = some "POST" ∧
        (handler cfg w method v s).2 = s) ∧
    (∀ (cfg : Config) (w : World) (s : ExecState) (v : JsValue),
      isStringVal v = false →
        (handler cfg w "POST" v s).1.status = 400 ∧
        (handler cfg w "POST" v s).2 = s) ∧
    (∀ (cfg : Config) (w : World) (s : ExecState) (img : String) (e : JsError),
      img ≠ "" → (handleScan cfg w img s).1 = ScanResult.err e →
        (handler cfg w "POST" (JsValue.str img) s).1.status = 500 ∧
        (handler cfg w "POST" (JsValue.str img) s).1.body =
          ResponseBody.detail (e.message.getD "Không thể xử lý yêu cầu.")) := by
  refine ⟨?_, ?_, ?_⟩
  · intro cfg w s method v hm
    simp [handler, hm]
  · intro cfg w s v hv
    cases v <;> simp_all [handler, isStringVal]
  · intro cfg w s img e hi he
    rcases hh : handleScan cfg w img s with ⟨r, s1⟩
    rw [hh] at he
    simp only at he
    subst he
    simp [handler, hi, hh]

/-- Witness for C9, one concrete instance per part: a GET request carrying
a perfectly valid string image (and a world whose scans succeed), a POST
with a numeric `image` under the same succeeding world, and a POST whose
analysis call fails. -/
theorem handler_status_codes_witness :
    ((handler cfgAuto wRetryOk "GET" (JsValue.str "imagedata") ExecState.init).1.status = 405 ∧
     (handler cfgAuto wRetryOk "GET" (JsValue.str "imagedata") ExecState.init).1.allowHeader =
       some "POST" ∧
     (handler cfgAuto wRetryOk "GET" (JsValue.str "imagedata") ExecState.init).2 =
       ExecState.init) ∧
    ((handler cfgAuto wRetryOk "POST" (JsValue.num 123) ExecState.init).1.status = 400 ∧
     (handler cfgAuto wRetryOk "POST" (JsValue.num 123) ExecState.init).2 =
       ExecState.init) ∧
    ((handler cfgAuto wAnalysisFail "POST" (JsValue.str "imagedata") ExecState.init).1.status
       = 500 ∧
     (handler cfgAuto wAnalysisFail "POST" (JsValue.str "imagedata") ExecState.init).1.body =
       ResponseBody.detail (errAnalysis.message.getD "Không thể xử lý yêu cầu.")) :=
  ⟨handler_status_codes.1 cfgAuto wRetryOk ExecState.init "GET" (JsValue.str "imagedata")
     (by decide),
   handler_status_codes.2.1 cfgAuto wRetryOk ExecState.init (JsValue.num 123) (by decide),
   handler_status_codes.2.2 cfgAuto wAnalysisFail ExecState.init "imagedata" errAnalysis
     (by decide) (by decide)⟩
